import Mathlib

/-!
Shallow embedding of the core of the Binance futures trading bot
(`src/bot/client.py` and `src/bot/validators.py`): request signing,
retry with exponential backoff, API-error translation, and the order
parameter validators.  Machine-level details (HMAC-SHA256, URL encoding,
UTF-8, Python `Decimal` string parsing) are embedded executably so that
concrete inputs can be evaluated.
-/

namespace TradingBot

/-- Values that appear in a request parameter mapping: strings, ints
(timestamps, recvWindow), or Python `None` (an absent optional passed through). -/
inductive PValue where
  | s (v : String)
  | n (v : Nat)
  | noneV
deriving DecidableEq, Repr

/-- Python `str(value)` for the parameter values we model. -/
def PValue.toStr : PValue → String
  | .s v => v
  | .n v => toString v
  | .noneV => "None"

/-- A Python dict of request parameters, in insertion order. -/
abbrev ParamList := List (String × PValue)

/-- Keys of a parameter mapping, in order. -/
def dictKeys (l : ParamList) : List String := l.map Prod.fst

/-- Python `d[k]` / `d.get(k)` lookup: first (unique) binding of the key. -/
def dictLookup (k : String) : List (String × α) → Option α
  | [] => none
  | (k2, v) :: rest => if k2 = k then some v else dictLookup k rest

/-- Python `d[k] = v`: replace the value in place if the key exists,
otherwise append the new binding at the end (dict insertion order). -/
def dictSet (l : ParamList) (k : String) (v : PValue) : ParamList :=
  if k ∈ dictKeys l then l.map (fun p => if p.1 = k then (k, v) else p)
  else l ++ [(k, v)]

/-- UTF-8 encoding of a single character, as a list of bytes. -/
def utf8EncodeChar (c : Char) : List Nat :=
  let n := c.toNat
  if n < 128 then [n]
  else if n < 2048 then [192 + n / 64, 128 + n % 64]
  else if n < 65536 then [224 + n / 4096, 128 + (n / 64) % 64, 128 + n % 64]
  else [240 + n / 262144, 128 + (n / 4096) % 64, 128 + (n / 64) % 64, 128 + n % 64]

/-- UTF-8 encoding of a string, as a list of bytes. -/
def utf8Encode (s : String) : List Nat := (s.toList.map utf8EncodeChar).flatten

/-- Bytes left unescaped by `urllib.parse.quote_plus`: ASCII letters,
digits, and the characters underscore, dot, dash, tilde. -/
def isUrlSafe (b : Nat) : Bool :=
  decide ((65 ≤ b ∧ b ≤ 90) ∨ (97 ≤ b ∧ b ≤ 122) ∨ (48 ≤ b ∧ b ≤ 57) ∨
    b = 95 ∨ b = 46 ∨ b = 45 ∨ b = 126)

/-- Uppercase hexadecimal digit for a value below 16. -/
def hexDigitUpper (n : Nat) : Char :=
  if n < 10 then Char.ofNat (48 + n) else Char.ofNat (55 + n)

/-- Lowercase hexadecimal digit for a value below 16. -/
def hexDigitLower (n : Nat) : Char :=
  if n < 10 then Char.ofNat (48 + n) else Char.ofNat (87 + n)

/-- `urllib.parse.quote_plus` with empty safe set: UTF-8 encode, keep safe
bytes, turn spaces into plus signs, percent-encode everything else. -/
def quotePlus (s : String) : String :=
  String.mk (((utf8Encode s).map (fun b =>
    if b = 32 then ['+']
    else if isUrlSafe b then [Char.ofNat b]
    else ['%', hexDigitUpper (b / 16), hexDigitUpper (b % 16)])).flatten)

/-- `urllib.parse.urlencode` over a parameter mapping in its iteration
(insertion) order. -/
def urlencode (params : ParamList) : String :=
  String.intercalate "&" (params.map (fun p => quotePlus p.1 ++ "=" ++ quotePlus p.2.toStr))

/-- Truncation to a 32-bit word. -/
def w32 (n : Nat) : Nat := n % 4294967296

/-- 32-bit right rotation. -/
def rotr (x n : Nat) : Nat := w32 ((x >>> n) ||| (x <<< (32 - n)))

/-- SHA-256 round constants. -/
def sha256K : List Nat :=
  [1116352408, 1899447441, 3049323471, 3921009573, 961987163, 1508970993,
   2453635748, 2870763221, 3624381080, 310598401, 607225278, 1426881987,
   1925078388, 2162078206, 2614888103, 3248222580, 3835390401, 4022224774,
   264347078, 604807628, 770255983, 1249150122, 1555081692, 1996064986,
   2554220882, 2821834349, 2952996808, 3210313671, 3336571891, 3584528711,
   113926993, 338241895, 666307205, 773529912, 1294757372, 1396182291,
   1695183700, 1986661051, 2177026350, 2456956037, 2730485921, 2820302411,
   3259730800, 3345764771, 3516065817, 3600352804, 4094571909, 275423344,
   430227734, 506948616, 659060556, 883997877, 958139571, 1322822218,
   1537002063, 1747873779, 1955562222, 2024104815, 2227730452, 2361852424,
   2428436474, 2756734187, 3204031479, 3329325298]

/-- SHA-256 initial hash state. -/
def sha256H0 : List Nat :=
  [1779033703, 3144134277, 1013904242, 2773480762, 1359893119,
   2600822924, 528734635, 1541459225]

/-- Big-endian 8-byte encoding of a natural number. -/
def be64 (n : Nat) : List Nat :=
  (List.range 8).map (fun i => (n >>> (8 * (7 - i))) % 256)

/-- SHA-256 message padding: append 0x80, zero bytes, and the 64-bit
big-endian bit length, reaching a multiple of 64 bytes. -/
def sha256pad (msg : List Nat) : List Nat :=
  msg ++ 128 :: List.replicate ((119 - msg.length % 64) % 64) 0 ++ be64 (8 * msg.length)

/-- Group bytes into big-endian 32-bit words. -/
def bytesToWords : List Nat → List Nat
  | a :: b :: c :: d :: rest => (a * 16777216 + b * 65536 + c * 256 + d) :: bytesToWords rest
  | _ => []

/-- Group a word list into 16-word blocks. -/
def chunk16 : List Nat → List (List Nat)
  | w0 :: w1 :: w2 :: w3 :: w4 :: w5 :: w6 :: w7 ::
    w8 :: w9 :: w10 :: w11 :: w12 :: w13 :: w14 :: w15 :: rest =>
      [w0, w1, w2, w3, w4, w5, w6, w7, w8, w9, w10, w11, w12, w13, w14, w15] :: chunk16 rest
  | _ => []

/-- SHA-256 small sigma 0. -/
def ssig0 (x : Nat) : Nat := (rotr x 7) ^^^ (rotr x 18) ^^^ (x >>> 3)

/-- SHA-256 small sigma 1. -/
def ssig1 (x : Nat) : Nat := (rotr x 17) ^^^ (rotr x 19) ^^^ (x >>> 10)

/-- SHA-256 big sigma 0. -/
def bsig0 (x : Nat) : Nat := (rotr x 2) ^^^ (rotr x 13) ^^^ (rotr x 22)

/-- SHA-256 big sigma 1. -/
def bsig1 (x : Nat) : Nat := (rotr x 6) ^^^ (rotr x 11) ^^^ (rotr x 25)

/-- SHA-256 choose function. -/
def chF (x y z : Nat) : Nat := (x &&& y) ^^^ ((x ^^^ 4294967295) &&& z)

/-- SHA-256 majority function. -/
def majF (x y z : Nat) : Nat := (x &&& y) ^^^ (x &&& z) ^^^ (y &&& z)

/-- Extend a 16-word block to the 64-word message schedule. -/
def sha256Schedule (block : List Nat) : List Nat :=
  (List.range 48).foldl
    (fun acc _ =>
      acc ++ [w32 (ssig1 (acc.getD (acc.length - 2) 0) + acc.getD (acc.length - 7) 0 +
        ssig0 (acc.getD (acc.length - 15) 0) + acc.getD (acc.length - 16) 0)])
    block

/-- One SHA-256 compression round on the eight-word working state. -/
def sha256Round (st : List Nat) (kw : Nat × Nat) : List Nat :=
  match st with
  | [a, b, c, d, e, f, g, h] =>
    let t1 := w32 (h + bsig1 e + chF e f g + kw.1 + kw.2)
    let t2 := w32 (bsig0 a + majF a b c)
    [w32 (t1 + t2), a, b, c, w32 (d + t1), e, f, g]
  | other => other

/-- Process one 16-word block, updating the eight-word hash state. -/
def sha256Block (h : List Nat) (block : List Nat) : List Nat :=
  let w := sha256Schedule block
  let st := (sha256K.zip w).foldl sha256Round h
  (h.zip st).map (fun p => w32 (p.1 + p.2))

/-- Big-endian 4-byte encoding of a 32-bit word. -/
def wordBE (w : Nat) : List Nat := [(w >>> 24) % 256, (w >>> 16) % 256, (w >>> 8) % 256, w % 256]

/-- SHA-256 of a byte list, as a 32-byte list. -/
def sha256 (msg : List Nat) : List Nat :=
  (((chunk16 (bytesToWords (sha256pad msg))).foldl sha256Block sha256H0).map wordBE).flatten

/-- HMAC-SHA256 (RFC 2104) of a message under a key, both byte lists. -/
def hmacSha256 (key msg : List Nat) : List Nat :=
  let k1 := if 64 < key.length then sha256 key else key
  let k2 := k1 ++ List.replicate (64 - k1.length) 0
  sha256 ((k2.map (fun b => b ^^^ 92)) ++ sha256 ((k2.map (fun b => b ^^^ 54)) ++ msg))

/-- Lowercase hex string of a byte list, Python `hexdigest()`. -/
def toHexLower (bytes : List Nat) : String :=
  String.mk ((bytes.map (fun b => [hexDigitLower (b / 16), hexDigitLower (b % 16)])).flatten)

namespace BinanceClient

/-- `BinanceClient._sign`: URL-encode the params into a query string and
return the lowercase hex HMAC-SHA256 digest keyed by the UTF-8 secret. -/
def sign (apiSecret : String) (params : ParamList) : String :=
  let queryString := urlencode params
  toHexLower (hmacSha256 (utf8Encode apiSecret) (utf8Encode queryString))

/-- The specification's description of the signature ("HMAC-SHA256, keyed by
the UTF-8 secret, over the UTF-8 bytes of the URL-encoded query string of the
parameters, returned as the lowercase hex digest"), stated independently for
comparison with `sign`. -/
def signSpecModel (apiSecret : String) (params : ParamList) : String :=
  toHexLower (hmacSha256 (utf8Encode apiSecret) (utf8Encode (urlencode params)))

/-- The `RECV_WINDOW` module constant. -/
def RECV_WINDOW : Nat := 5000

/-- `BinanceClient._build_signed_params`: set `timestamp` (the current time
in milliseconds, passed here as `now`), then `recvWindow`, then `signature`
computed by `sign` over the mapping as extended so far. -/
def buildSignedParams (apiSecret : String) (now : Nat) (params : ParamList) : ParamList :=
  let p1 := dictSet params "timestamp" (.n now)
  let p2 := dictSet p1 "recvWindow" (.n RECV_WINDOW)
  dictSet p2 "signature" (.s (sign apiSecret p2))

end BinanceClient

/-- Parsed JSON values, as produced by `response.json()`. -/
inductive Json where
  | null
  | bool (b : Bool)
  | num (n : Int)
  | str (s : String)
  | arr (xs : List Json)
  | obj (fields : List (String × Json))

/-- Whether a JSON value equals the Python int `200` (the success sentinel
in the comparison `data["code"] != 200`). -/
def Json.isNum200 : Json → Bool
  | .num 200 => true
  | _ => false

/-- The test `isinstance(data, dict) and "code" in data and data["code"] != 200`. -/
def Json.isErrObj : Json → Bool
  | .obj fields =>
    match dictLookup "code" fields with
    | some v => ! v.isNum200
    | none => false
  | _ => false

/-- `data.get("code", -1)` on the parsed body. -/
def Json.getCode : Json → Json
  | .obj fields => (dictLookup "code" fields).getD (.num (-1))
  | _ => .num (-1)

/-- `data.get("msg", "Unknown error")` on the parsed body. -/
def Json.getMsg : Json → Json
  | .obj fields => (dictLookup "msg" fields).getD (.str "Unknown error")
  | _ => .str "Unknown error"

/-- The transport-layer exceptions caught by the retry loop: `Timeout`,
`ConnectionError`, and the generic `RequestException`. -/
inductive TransportExc where
  | timeout
  | connError
  | requestExc
deriving DecidableEq, Repr

/-- What the network does on one attempt: raise a transport exception, or
deliver a response with an HTTP status and a parsed JSON body. -/
inductive AttemptOutcome where
  | transportError (e : TransportExc)
  | response (status : Nat) (data : Json)

/-- The value of the `last_exception` variable: its initialisation
(`RuntimeError("No attempts made.")`) or the last caught transport exception. -/
inductive LastExc where
  | noAttempts
  | exc (e : TransportExc)
deriving DecidableEq, Repr

/-- How a call to `_request` ends: return the parsed body, raise
`BinanceAPIError(code, msg, status)`, or raise the final `ConnectionError`
(the specification's `NetworkError`) wrapping `last_exception`. -/
inductive ReqResult where
  | ok (data : Json)
  | apiError (code : Json) (msg : Json) (status : Nat)
  | connFailure (last : LastExc)

/-- Observable behaviour of one call to `_request`: its result, the number
of network attempts made, the backoff sleeps performed (in seconds, in
order), and the parameter mapping transmitted on each attempt. -/
structure RunOutput where
  result : ReqResult
  attempts : Nat
  sleeps : List Nat
  sent : List ParamList

/-- The attempt numbers visited by `for attempt in range(start, start+count)`. -/
def attemptNums (start count : Nat) : List Nat :=
  match count with
  | 0 => []
  | c + 1 => start :: attemptNums (start + 1) c

/-- The body of the retry loop of `BinanceClient._request`, iterating over
the remaining attempt numbers.  `sp` is the parameter mapping fixed before
the loop; each attempt transmits it.  A response whose parsed body is an
error mapping raises `BinanceAPIError` at once (re-raised by the
`except BinanceAPIError: raise` clause); a transport exception is recorded
in `last_exception` and, when `attempt < max_retries`, is followed by a
`2^(attempt-1)` second sleep; when the loop ends, the final
`ConnectionError` wraps `last_exception`. -/
def runAttemptList (env : Nat → AttemptOutcome) (maxRetries : Nat) :
    List Nat → ParamList → LastExc → RunOutput
  | [], _, last => ⟨.connFailure last, 0, [], []⟩
  | attempt :: rest, sp, _last =>
    match env attempt with
    | .response status data =>
      if data.isErrObj then
        ⟨.apiError data.getCode data.getMsg status, 1, [], [sp]⟩
      else
        ⟨.ok data, 1, [], [sp]⟩
    | .transportError e =>
      let out := runAttemptList env maxRetries rest sp (.exc e)
      if attempt < maxRetries then
        ⟨out.result, out.attempts + 1, 2 ^ (attempt - 1) :: out.sleeps, sp :: out.sent⟩
      else
        ⟨out.result, out.attempts + 1, out.sleeps, sp :: out.sent⟩
termination_by ats => ats

/-- The retry loop of `_request` run on the transmitted parameter mapping
`sp`: attempts `1 .. maxRetries`, starting from the initial
`last_exception`. -/
def requestCore (env : Nat → AttemptOutcome) (maxRetries : Nat) (sp : ParamList) : RunOutput :=
  runAttemptList env maxRetries (attemptNums 1 maxRetries) sp .noAttempts

/-- `BinanceClient._request` around the loop: `params = params or {}`
(a fresh empty dict when the caller passed `None` or an empty dict — only a
non-empty caller dict stays aliased), then `_build_signed_params` when
`signed`, mutating that dict in place before the first attempt.  Returns the
run output together with the caller-supplied mapping as the caller sees it
after the call. -/
def pyRequest (apiSecret : String) (now : Nat) (env : Nat → AttemptOutcome)
    (maxRetries : Nat) (callerParams : Option ParamList) (signed : Bool) :
    RunOutput × Option ParamList :=
  let working : ParamList :=
    match callerParams with
    | none => []
    | some l => if l.isEmpty then [] else l
  let aliased : Bool :=
    match callerParams with
    | none => false
    | some l => ! l.isEmpty
  let sp := if signed then BinanceClient.buildSignedParams apiSecret now working else working
  (requestCore env maxRetries sp, if aliased then some sp else callerParams)

/-- Python whitespace characters stripped by `str.strip` (ASCII range). -/
def pyIsSpace (c : Char) : Bool :=
  decide (c.toNat = 32 ∨ c.toNat = 9 ∨ c.toNat = 10 ∨ c.toNat = 13 ∨ c.toNat = 11 ∨ c.toNat = 12)

/-- `str.strip()` on a character list: drop whitespace from both ends. -/
def pyStripL (cs : List Char) : List Char :=
  ((cs.dropWhile pyIsSpace).reverse.dropWhile pyIsSpace).reverse

/-- `str.upper()` on one character (ASCII range of the model). -/
def pyUpperChar (c : Char) : Char :=
  if 97 ≤ c.toNat ∧ c.toNat ≤ 122 then Char.ofNat (c.toNat - 32) else c

/-- `str.lower()` on one character (ASCII range of the model). -/
def pyLowerChar (c : Char) : Char :=
  if 65 ≤ c.toNat ∧ c.toNat ≤ 90 then Char.ofNat (c.toNat + 32) else c

/-- A character counted as alphabetic by `str.isalpha` (ASCII range of the
model). -/
def pyIsAlphaChar (c : Char) : Bool :=
  decide ((65 ≤ c.toNat ∧ c.toNat ≤ 90) ∨ (97 ≤ c.toNat ∧ c.toNat ≤ 122))

/-- ASCII decimal digit test. -/
def pyIsDigit (c : Char) : Bool := decide (48 ≤ c.toNat ∧ c.toNat ≤ 57)

/-- `str.strip().upper()` as a string operation. -/
def pyStripUpper (s : String) : String := String.mk ((pyStripL s.toList).map pyUpperChar)

/-- A value of Python `decimal.Decimal`: a finite value
`(-1)^sign * coeff * 10^exp`, a signed infinity, or a NaN. -/
inductive PyDecimal where
  | finite (sign : Bool) (coeff : Nat) (exp : Int)
  | infinity (sign : Bool)
  | nan
deriving DecidableEq, Repr

/-- The exact rational value of a finite decimal. -/
def PyDecimal.toRat : PyDecimal → Option ℚ
  | .finite sign c e => some ((if sign then -1 else 1) * (c : ℚ) * 10 ^ e)
  | _ => none

/-- The comparison `d <= 0` of the decimal module: ordering against a NaN
signals `InvalidOperation` (trapped by default), otherwise compare the
value with zero. -/
def PyDecimal.leZero : PyDecimal → Except Unit Bool
  | .nan => .error ()
  | .infinity sign => .ok sign
  | .finite sign c _ => .ok (c == 0 || sign)

/-- Natural number denoted by a list of ASCII digits. -/
def digitsToNat (cs : List Char) : Nat := cs.foldl (fun a c => 10 * a + (c.toNat - 48)) 0

/-- Consume an optional leading sign, returning whether it was a minus. -/
def parseSignChar : List Char → Bool × List Char
  | '+' :: rest => (false, rest)
  | '-' :: rest => (true, rest)
  | cs => (false, cs)

/-- Parse the optional exponent part of a decimal numeric string, given the
accumulated coefficient digits and the length of the fractional part. -/
def parseExpPart (sign : Bool) (coeffDigits : List Char) (fracLen : Nat)
    (rest : List Char) : Option PyDecimal :=
  match rest with
  | [] => some (.finite sign (digitsToNat coeffDigits) (-(fracLen : Int)))
  | e :: rest2 =>
    if pyLowerChar e = 'e' then
      let (esign, rest3) := parseSignChar rest2
      let ed := rest3.takeWhile pyIsDigit
      let rest4 := rest3.dropWhile pyIsDigit
      if ed = [] ∨ rest4 ≠ [] then none
      else
        some (.finite sign (digitsToNat coeffDigits)
          ((if esign then -(digitsToNat ed : Int) else (digitsToNat ed : Int)) - (fracLen : Int)))
    else none

/-- Parse `digits [. digits] [exponent]` with at least one digit. -/
def parseNumericPart (sign : Bool) (cs : List Char) : Option PyDecimal :=
  let ip := cs.takeWhile pyIsDigit
  let rest1 := cs.dropWhile pyIsDigit
  match rest1 with
  | '.' :: rest2 =>
    let fp := rest2.takeWhile pyIsDigit
    let rest3 := rest2.dropWhile pyIsDigit
    if ip = [] ∧ fp = [] then none
    else parseExpPart sign (ip ++ fp) fp.length rest3
  | _ => if ip = [] then none else parseExpPart sign ip 0 rest1

/-- Parse the part after the optional sign: an infinity, a NaN, or a
numeric value (case-insensitive keywords, per the decimal grammar). -/
def parseDecimalCore (sign : Bool) (cs : List Char) : Option PyDecimal :=
  let low := cs.map pyLowerChar
  if low = "inf".toList ∨ low = "infinity".toList then some (.infinity sign)
  else if (match low with
           | 'n' :: 'a' :: 'n' :: rest => rest.all pyIsDigit
           | 's' :: 'n' :: 'a' :: 'n' :: rest => rest.all pyIsDigit
           | _ => false) then some .nan
  else parseNumericPart sign cs

/-- `Decimal(str)` construction: strip surrounding whitespace, drop
underscores, consume an optional sign, and parse a numeric value.  `none`
models raising `decimal.InvalidOperation` on a malformed string. -/
def pyDecimalOfString (s : String) : Option PyDecimal :=
  let cs := (pyStripL s.toList).filter (fun c => c ≠ '_')
  let (sign, rest) := parseSignChar cs
  parseDecimalCore sign rest

/-- The distinct `ValueError` messages raised by the validators, one
constructor per raise site, carrying the interpolated data. -/
inductive VMsg where
  | symbolEmpty
  | symbolInvalid (s : String)
  | sideInvalid (s : String)
  | orderTypeInvalid (s : String)
  | quantityNotANumber (s : String)
  | quantityNotPositive (d : PyDecimal)
  | priceRequired
  | priceNotANumber (s : String)
  | priceNotPositive (d : PyDecimal)
  | stopPriceRequired
  | stopPriceNotANumber (s : String)
  | stopPriceNotPositive (d : PyDecimal)
deriving DecidableEq, Repr

/-- The exceptions the validators can raise: the documented `ValueError`s,
or an uncaught `decimal.InvalidOperation` escaping from a comparison. -/
inductive PyExn where
  | valueError (m : VMsg)
  | invalidOperation
deriving DecidableEq, Repr

/-- `validate_symbol`: strip and upper-case; reject empty or non-alphabetic. -/
def validate_symbol (symbol : String) : Except PyExn String :=
  let s := (pyStripL symbol.toList).map pyUpperChar
  if s = [] then .error (.valueError .symbolEmpty)
  else if ! (s.all pyIsAlphaChar) then .error (.valueError (.symbolInvalid (String.mk s)))
  else .ok (String.mk s)

/-- `validate_side`: strip and upper-case; must be BUY or SELL. -/
def validate_side (side : String) : Except PyExn String :=
  let s := pyStripUpper side
  if s = "BUY" ∨ s = "SELL" then .ok s
  else .error (.valueError (.sideInvalid s))

/-- `validate_order_type`: strip and upper-case; must be MARKET, LIMIT, or
STOP_MARKET. -/
def validate_order_type (order_type : String) : Except PyExn String :=
  let s := pyStripUpper order_type
  if s = "MARKET" ∨ s = "LIMIT" ∨ s = "STOP_MARKET" then .ok s
  else .error (.valueError (.orderTypeInvalid s))

/-- `validate_quantity`: parse as Decimal (`InvalidOperation` there becomes
a `ValueError`); then the uncaught comparison `qty <= 0` rejects
non-positive values. -/
def validate_quantity (quantity : String) : Except PyExn PyDecimal :=
  match pyDecimalOfString quantity with
  | none => .error (.valueError (.quantityNotANumber quantity))
  | some qty =>
    match qty.leZero with
    | .error _ => .error .invalidOperation
    | .ok true => .error (.valueError (.quantityNotPositive qty))
    | .ok false => .ok qty

/-- `validate_price`: required positive Decimal for LIMIT and STOP_MARKET
(with distinct messages), `None` result for every other order type. -/
def validate_price (price : Option String) (order_type : String) :
    Except PyExn (Option PyDecimal) :=
  if order_type = "LIMIT" then
    match price with
    | none => .error (.valueError .priceRequired)
    | some raw =>
      match pyDecimalOfString raw with
      | none => .error (.valueError (.priceNotANumber raw))
      | some p =>
        match p.leZero with
        | .error _ => .error .invalidOperation
        | .ok true => .error (.valueError (.priceNotPositive p))
        | .ok false => .ok (some p)
  else if order_type = "STOP_MARKET" then
    match price with
    | none => .error (.valueError .stopPriceRequired)
    | some raw =>
      match pyDecimalOfString raw with
      | none => .error (.valueError (.stopPriceNotANumber raw))
      | some p =>
        match p.leZero with
        | .error _ => .error .invalidOperation
        | .ok true => .error (.valueError (.stopPriceNotPositive p))
        | .ok false => .ok (some p)
  else .ok none

/-- The validated parameter dict returned by `validate_all`. -/
structure ValidatedOrder where
  symbol : String
  side : String
  order_type : String
  quantity : PyDecimal
  price : Option PyDecimal
deriving DecidableEq, Repr

/-- `validate_all`: run the validators in the order in which the dict
literal evaluates them — symbol, side, order type, quantity, price — and
stop at the first failure. -/
def validate_all (symbol side order_type quantity : String) (price : Option String) :
    Except PyExn ValidatedOrder := do
  let s ← validate_symbol symbol
  let sd ← validate_side side
  let ot ← validate_order_type order_type
  let q ← validate_quantity quantity
  let p ← validate_price price (pyStripUpper order_type)
  pure ⟨s, sd, ot, q, p⟩

/-- Python `a or b` on an optional string: the default steps in when the
value is missing or empty (falsy). -/
def pyOrStr (o : Option String) (d : String) : String :=
  match o with
  | none => d
  | some t => if t = "" then d else t

/-- The parameter assembly of `BinanceClient.place_order`: the base dict
literal, then `price`/`timeInForce` for LIMIT, `stopPrice` for STOP_MARKET,
and `reduceOnly` when the flag is set. -/
def place_order_params (symbol side order_type quantity : String)
    (price time_in_force stop_price : Option String)
    (reduce_only : Bool) (position_side : String) : ParamList :=
  let params : ParamList :=
    [("symbol", .s symbol), ("side", .s side), ("type", .s order_type),
     ("quantity", .s quantity), ("positionSide", .s position_side)]
  let params :=
    if order_type = "LIMIT" then
      dictSet (dictSet params "price" (match price with | none => .noneV | some p => .s p))
        "timeInForce" (.s (pyOrStr time_in_force "GTC"))
    else params
  let params :=
    if order_type = "STOP_MARKET" then
      dictSet params "stopPrice" (match stop_price with | none => .noneV | some p => .s p)
    else params
  if reduce_only then dictSet params "reduceOnly" (.s "true") else params

/-- Evaluating `Char.ofNat` below the surrogate range. -/
theorem charToNat_ofNat (n : Nat) (h : n < 55296) : (Char.ofNat n).toNat = n := by
  have hv : n.isValidChar := Or.inl h
  simp [Char.ofNat, hv, Char.ofNatAux, Char.toNat, UInt32.toNat, UInt32.ofNatCore]

/-- ASCII upper-casing preserves the alphabetic predicate. -/
theorem upper_alpha (c : Char) : pyIsAlphaChar (pyUpperChar c) = pyIsAlphaChar c := by
  unfold pyUpperChar pyIsAlphaChar
  by_cases h : 97 ≤ c.toNat ∧ c.toNat ≤ 122
  · rw [if_pos h]
    rw [charToNat_ofNat (c.toNat - 32) (by omega)]
    simp only [decide_eq_decide]
    omega
  · rw [if_neg h]

/-- Keys of an appended mapping. -/
theorem dictKeys_append (l1 l2 : ParamList) : dictKeys (l1 ++ l2) = dictKeys l1 ++ dictKeys l2 :=
  List.map_append _ _ _

/-- Assignment of a fresh key appends the binding at the end. -/
theorem dictSet_fresh (l : ParamList) (k : String) (v : PValue) (h : k ∉ dictKeys l) :
    dictSet l k v = l ++ [(k, v)] := by
  simp [dictSet, h]

/-- Lookup skips a prefix that does not bind the key. -/
theorem dictLookup_append (l1 l2 : ParamList) (k : String) (h : k ∉ dictKeys l1) :
    dictLookup k (l1 ++ l2) = dictLookup k l2 := by
  induction l1 with
  | nil => rfl
  | cons p rest ih =>
    obtain ⟨k2, v⟩ := p
    have hne : k2 ≠ k := by
      intro he
      exact h (by simp [dictKeys, he])
    have hrest : k ∉ dictKeys rest := by
      intro hm
      exact h (by simp [dictKeys] at hm ⊢; exact Or.inr hm)
    simp [dictLookup, hne, ih hrest]

/-- Shared description of `_build_signed_params` on a mapping free of the
three injected keys: append `timestamp`, then `recvWindow`, then the
`signature` computed by `sign` over the first two extensions. -/
theorem buildSignedParams_eq (apiSecret : String) (now : Nat) (params : ParamList)
    (h1 : "timestamp" ∉ dictKeys params) (h2 : "recvWindow" ∉ dictKeys params)
    (h3 : "signature" ∉ dictKeys params) :
    BinanceClient.buildSignedParams apiSecret now params =
      params ++ [("timestamp", .n now), ("recvWindow", .n BinanceClient.RECV_WINDOW),
        ("signature", .s (BinanceClient.sign apiSecret
          (params ++ [("timestamp", .n now), ("recvWindow", .n BinanceClient.RECV_WINDOW)])))] := by
  unfold BinanceClient.buildSignedParams
  have h2b : "recvWindow" ∉ dictKeys (params ++ [("timestamp", PValue.n now)]) := by
    simp only [dictKeys_append, List.mem_append]
    rintro (h | h)
    · exact h2 h
    · simp [dictKeys] at h
  have h3b : "signature" ∉ dictKeys ((params ++ [("timestamp", PValue.n now)]) ++
      [("recvWindow", PValue.n BinanceClient.RECV_WINDOW)]) := by
    simp only [dictKeys_append, List.mem_append]
    rintro ((h | h) | h)
    · exact h3 h
    · simp [dictKeys] at h
    · simp [dictKeys] at h
  simp only [dictSet_fresh _ _ _ h1]
  simp only [dictSet_fresh _ _ _ h2b]
  simp only [dictSet_fresh _ _ _ h3b]
  simp [List.append_assoc]

/-- C3: for every parameter mapping and fixed secret, `sign` is
deterministic — identical input mappings give identical results — and the
result is the lowercase hex digest of HMAC-SHA256, keyed by the UTF-8
secret, over the UTF-8 bytes of the URL-encoded query string of the
parameters (the specification-side `signSpecModel`). -/
theorem claim_C3_sign_deterministic (apiSecret : String) (p q : ParamList) (h : p = q) :
    BinanceClient.sign apiSecret p = BinanceClient.sign apiSecret q ∧
    BinanceClient.sign apiSecret p =
      toHexLower (hmacSha256 (utf8Encode apiSecret) (utf8Encode (urlencode p))) ∧
    BinanceClient.sign apiSecret p = BinanceClient.signSpecModel apiSecret p := by
  subst h
  exact ⟨rfl, rfl, rfl⟩

/-- Witness for C3 at a concrete secret and mapping. -/
theorem claim_C3_sign_deterministic_witness :
    BinanceClient.sign "secret" [("symbol", .s "BTCUSDT")] =
      BinanceClient.sign "secret" [("symbol", .s "BTCUSDT")] ∧
    BinanceClient.sign "secret" [("symbol", .s "BTCUSDT")] =
      toHexLower (hmacSha256 (utf8Encode "secret")
        (utf8Encode (urlencode [("symbol", .s "BTCUSDT")]))) :=
  ⟨(claim_C3_sign_deterministic "secret" _ _ rfl).1,
   (claim_C3_sign_deterministic "secret" _ _ rfl).2.1⟩

/-- C4: on a mapping free of the injected keys, `_build_signed_params`
extends the mapping with `timestamp` (the call-time clock value) and
`recvWindow` (the constant 5000), then appends a `signature` computed over
exactly the extended set — business fields plus `timestamp` and
`recvWindow`, excluding the signature itself — and the signature is present
in the result. -/
theorem claim_C4_build_signed_params (apiSecret : String) (now : Nat) (params : ParamList)
    (h1 : "timestamp" ∉ dictKeys params) (h2 : "recvWindow" ∉ dictKeys params)
    (h3 : "signature" ∉ dictKeys params) :
    BinanceClient.buildSignedParams apiSecret now params =
      params ++ [("timestamp", .n now), ("recvWindow", .n 5000),
        ("signature", .s (BinanceClient.sign apiSecret
          (params ++ [("timestamp", .n now), ("recvWindow", .n 5000)])))] ∧
    dictLookup "signature" (BinanceClient.buildSignedParams apiSecret now params) =
      some (.s (BinanceClient.sign apiSecret
        (params ++ [("timestamp", .n now), ("recvWindow", .n 5000)]))) := by
  have heq := buildSignedParams_eq apiSecret now params h1 h2 h3
  simp only [BinanceClient.RECV_WINDOW] at heq
  refine ⟨heq, ?_⟩
  rw [heq, dictLookup_append _ _ _ h3]
  simp [dictLookup]

/-- Witness for C4 at a concrete mapping. -/
theorem claim_C4_build_signed_params_witness :
    BinanceClient.buildSignedParams "secret" 1700000000000 [("symbol", .s "BTCUSDT")] =
      [("symbol", .s "BTCUSDT")] ++ [("timestamp", .n 1700000000000), ("recvWindow", .n 5000),
        ("signature", .s (BinanceClient.sign "secret"
          ([("symbol", .s "BTCUSDT")] ++
            [("timestamp", .n 1700000000000), ("recvWindow", .n 5000)])))] ∧
    dictLookup "signature"
        (BinanceClient.buildSignedParams "secret" 1700000000000 [("symbol", .s "BTCUSDT")]) =
      some (.s (BinanceClient.sign "secret"
        ([("symbol", .s "BTCUSDT")] ++
          [("timestamp", .n 1700000000000), ("recvWindow", .n 5000)]))) :=
  claim_C4_build_signed_params "secret" 1700000000000 [("symbol", .s "BTCUSDT")]
    (by decide) (by decide) (by decide)

/-- C8: `place_order` includes `price` and `timeInForce` exactly when the
order type is LIMIT (with `timeInForce` falling back to GTC when
unspecified), `stopPrice` exactly when it is STOP_MARKET, `reduceOnly`
exactly when the flag is set, and always includes `symbol`, `side`,
`type`, `quantity` and `positionSide`. -/
theorem claim_C8_place_order_fields (symbol side order_type quantity : String)
    (price time_in_force stop_price : Option String) (reduce_only : Bool)
    (position_side : String) :
    ("price" ∈ dictKeys (place_order_params symbol side order_type quantity price
        time_in_force stop_price reduce_only position_side) ↔ order_type = "LIMIT") ∧
    ("timeInForce" ∈ dictKeys (place_order_params symbol side order_type quantity price
        time_in_force stop_price reduce_only position_side) ↔ order_type = "LIMIT") ∧
    ("stopPrice" ∈ dictKeys (place_order_params symbol side order_type quantity price
        time_in_force stop_price reduce_only position_side) ↔ order_type = "STOP_MARKET") ∧
    ("reduceOnly" ∈ dictKeys (place_order_params symbol side order_type quantity price
        time_in_force stop_price reduce_only position_side) ↔ reduce_only = true) ∧
    "symbol" ∈ dictKeys (place_order_params symbol side order_type quantity price
        time_in_force stop_price reduce_only position_side) ∧
    "side" ∈ dictKeys (place_order_params symbol side order_type quantity price
        time_in_force stop_price reduce_only position_side) ∧
    "type" ∈ dictKeys (place_order_params symbol side order_type quantity price
        time_in_force stop_price reduce_only position_side) ∧
    "quantity" ∈ dictKeys (place_order_params symbol side order_type quantity price
        time_in_force stop_price reduce_only position_side) ∧
    "positionSide" ∈ dictKeys (place_order_params symbol side order_type quantity price
        time_in_force stop_price reduce_only position_side) ∧
    dictLookup "timeInForce" (place_order_params symbol side order_type quantity price
        time_in_force stop_price reduce_only position_side) =
      (if order_type = "LIMIT" then some (.s (pyOrStr time_in_force "GTC")) else none) ∧
    pyOrStr none "GTC" = "GTC" := by
  by_cases hL : order_type = "LIMIT" <;> by_cases hS : order_type = "STOP_MARKET" <;>
    cases reduce_only <;>
    simp_all [place_order_params, dictSet, dictKeys, dictLookup, pyOrStr]

/-- C10: the validators accept the non-finite decimal Infinity — its
positivity comparison succeeds and is false — while NaN parses but makes
the uncaught comparison signal `decimal.InvalidOperation`, an error
distinct from every `ValueError` the validators document. -/
theorem claim_C10_nonfinite_decimals :
    validate_quantity "Infinity" = .ok (.infinity false) ∧
    validate_price (some "Infinity") "LIMIT" = .ok (some (.infinity false)) ∧
    validate_price (some "Infinity") "STOP_MARKET" = .ok (some (.infinity false)) ∧
    validate_quantity "NaN" = .error .invalidOperation ∧
    validate_price (some "NaN") "LIMIT" = .error .invalidOperation ∧
    validate_price (some "NaN") "STOP_MARKET" = .error .invalidOperation ∧
    ∀ m, PyExn.invalidOperation ≠ PyExn.valueError m := by
  refine ⟨rfl, rfl, rfl, rfl, rfl, rfl, ?_⟩
  intro m h
  exact PyExn.noConfusion h

/-- C5: `validate_price` returns the absent value for MARKET regardless of
the argument; for LIMIT and STOP_MARKET it rejects a missing, unparsable,
or non-positive price with a `ValueError`, and otherwise returns the parsed
value; the input 10.5 comes back as the exact decimal with rational value
21/2, with no floating-point drift. -/
theorem claim_C5_validate_price :
    (∀ p, validate_price p "MARKET" = .ok none) ∧
    (∀ ot, ot = "LIMIT" ∨ ot = "STOP_MARKET" →
      (∃ m, validate_price none ot = .error (.valueError m)) ∧
      (∀ raw, pyDecimalOfString raw = none →
        ∃ m, validate_price (some raw) ot = .error (.valueError m)) ∧
      (∀ raw d, pyDecimalOfString raw = some d → d.leZero = .ok true →
        ∃ m, validate_price (some raw) ot = .error (.valueError m)) ∧
      (∀ raw d, pyDecimalOfString raw = some d → d.leZero = .ok false →
        validate_price (some raw) ot = .ok (some d))) ∧
    validate_price (some "10.5") "LIMIT" = .ok (some (.finite false 105 (-1))) ∧
    PyDecimal.toRat (.finite false 105 (-1)) = some ((21 : ℚ) / 2) := by
  refine ⟨fun p => rfl, ?_, rfl, ?_⟩
  · rintro ot (rfl | rfl)
    · refine ⟨⟨.priceRequired, rfl⟩, ?_, ?_, ?_⟩
      · intro raw h
        exact ⟨.priceNotANumber raw, by simp [validate_price, h]⟩
      · intro raw d h hle
        exact ⟨.priceNotPositive d, by simp [validate_price, h, hle]⟩
      · intro raw d h hle
        simp [validate_price, h, hle]
    · refine ⟨⟨.stopPriceRequired, rfl⟩, ?_, ?_, ?_⟩
      · intro raw h
        exact ⟨.stopPriceNotANumber raw, by simp [validate_price, h]⟩
      · intro raw d h hle
        exact ⟨.stopPriceNotPositive d, by simp [validate_price, h, hle]⟩
      · intro raw d h hle
        simp [validate_price, h, hle]
  · simp [PyDecimal.toRat]
    norm_num [zpow_neg]

/-- Witness for C5 at concrete inputs: an unparsable LIMIT price, a zero
stop price, and a positive LIMIT price. -/
theorem claim_C5_validate_price_witness :
    (∃ m, validate_price (some "abc") "LIMIT" = .error (.valueError m)) ∧
    (∃ m, validate_price (some "0") "STOP_MARKET" = .error (.valueError m)) ∧
    validate_price (some "2") "LIMIT" = .ok (some (.finite false 2 0)) := by
  refine ⟨?_, ?_, ?_⟩
  · exact (claim_C5_validate_price.2.1 "LIMIT" (Or.inl rfl)).2.1 "abc" (by decide)
  · exact (claim_C5_validate_price.2.1 "STOP_MARKET" (Or.inr rfl)).2.2.1 "0"
      (.finite false 0 0) (by decide) rfl
  · exact (claim_C5_validate_price.2.1 "LIMIT" (Or.inl rfl)).2.2.2 "2"
      (.finite false 2 0) (by decide) rfl

/-- C6: `validate_all` runs the validators in the fixed order symbol, side,
order type, quantity, price, and raises the first failure; in particular,
with both the symbol and the side invalid, the raised error is the symbol
error. -/
theorem claim_C6_validate_all_failfast (symbol side order_type quantity : String)
    (price : Option String) :
    (∀ e, validate_symbol symbol = .error e →
      validate_all symbol side order_type quantity price = .error e) ∧
    (∀ s e, validate_symbol symbol = .ok s → validate_side side = .error e →
      validate_all symbol side order_type quantity price = .error e) ∧
    (∀ s sd e, validate_symbol symbol = .ok s → validate_side side = .ok sd →
      validate_order_type order_type = .error e →
      validate_all symbol side order_type quantity price = .error e) ∧
    (∀ s sd ot e, validate_symbol symbol = .ok s → validate_side side = .ok sd →
      validate_order_type order_type = .ok ot → validate_quantity quantity = .error e →
      validate_all symbol side order_type quantity price = .error e) ∧
    (∀ s sd ot q e, validate_symbol symbol = .ok s → validate_side side = .ok sd →
      validate_order_type order_type = .ok ot → validate_quantity quantity = .ok q →
      validate_price price (pyStripUpper order_type) = .error e →
      validate_all symbol side order_type quantity price = .error e) ∧
    (∀ e1 e2, validate_symbol symbol = .error e1 → validate_side side = .error e2 →
      validate_all symbol side order_type quantity price = .error e1) := by
  refine ⟨?_, ?_, ?_, ?_, ?_, ?_⟩
  · intro e h1
    simp [validate_all, h1, Bind.bind, Except.bind]
  · intro s e h1 h2
    simp [validate_all, h1, h2, Bind.bind, Except.bind]
  · intro s sd e h1 h2 h3
    simp [validate_all, h1, h2, h3, Bind.bind, Except.bind]
  · intro s sd ot e h1 h2 h3 h4
    simp [validate_all, h1, h2, h3, h4, Bind.bind, Except.bind]
  · intro s sd ot q e h1 h2 h3 h4 h5
    simp [validate_all, h1, h2, h3, h4, h5, Bind.bind, Except.bind]
  · intro e1 e2 h1 h2
    simp [validate_all, h1, Bind.bind, Except.bind]

/-- Witness for C6: with an invalid symbol and an invalid side together,
the raised error is the symbol error. -/
theorem claim_C6_validate_all_failfast_witness :
    validate_all "b2c" "NOPE" "MARKET" "1" none =
      .error (.valueError (.symbolInvalid "B2C")) :=
  (claim_C6_validate_all_failfast "b2c" "NOPE" "MARKET" "1" none).2.2.2.2.2
    (.valueError (.symbolInvalid "B2C")) (.valueError (.sideInvalid "NOPE")) rfl rfl

/-- ASCII upper-casing preserves the alphabetic predicate, as a function
equation. -/
theorem pyUpper_comp_alpha : pyIsAlphaChar ∘ pyUpperChar = pyIsAlphaChar :=
  funext upper_alpha

/-- C7: `validate_symbol` returns the upper-cased trim of its input when
the trim is non-empty and purely alphabetic, and fails with a validation
error when the trim is empty or contains a non-alphabetic character. -/
theorem claim_C7_validate_symbol (s : String) :
    (pyStripL s.toList ≠ [] → (pyStripL s.toList).all pyIsAlphaChar = true →
      validate_symbol s = .ok (String.mk ((pyStripL s.toList).map pyUpperChar))) ∧
    (pyStripL s.toList = [] → validate_symbol s = .error (.valueError .symbolEmpty)) ∧
    ((pyStripL s.toList).all pyIsAlphaChar = false → pyStripL s.toList ≠ [] →
      validate_symbol s =
        .error (.valueError (.symbolInvalid (String.mk ((pyStripL s.toList).map pyUpperChar))))) := by
  refine ⟨?_, ?_, ?_⟩
  · intro hne hal
    have hmap : ((pyStripL s.toList).map pyUpperChar).all pyIsAlphaChar = true := by
      rw [List.all_map, pyUpper_comp_alpha]
      exact hal
    simp only [validate_symbol]
    rw [if_neg (show ¬(((pyStripL s.toList).map pyUpperChar) = []) from by simpa using hne),
        if_neg (show ¬((! (((pyStripL s.toList).map pyUpperChar).all pyIsAlphaChar)) = true) from by
          rw [hmap]; decide)]
  · intro he
    simp only [validate_symbol]
    rw [if_pos (show ((pyStripL s.toList).map pyUpperChar) = [] from by rw [he]; rfl)]
  · intro hal hne
    have hmap : ((pyStripL s.toList).map pyUpperChar).all pyIsAlphaChar = false := by
      rw [List.all_map, pyUpper_comp_alpha]
      exact hal
    simp only [validate_symbol]
    rw [if_neg (show ¬(((pyStripL s.toList).map pyUpperChar) = []) from by simpa using hne),
        if_pos (show ((! (((pyStripL s.toList).map pyUpperChar).all pyIsAlphaChar)) = true) from by
          rw [hmap]; rfl)]

/-- Witness for C7: an alphabetic symbol with surrounding blanks is
accepted upper-cased, a symbol containing a digit is rejected. -/
theorem claim_C7_validate_symbol_witness :
    validate_symbol "  btc  " = .ok "BTC" ∧
    validate_symbol " b2c " = .error (.valueError (.symbolInvalid "B2C")) := by
  constructor
  · exact ((claim_C7_validate_symbol "  btc  ").1 (by decide) (by decide)).trans rfl
  · exact ((claim_C7_validate_symbol " b2c ").2.2 (by decide) (by decide)).trans rfl

/-- Every attempt of the retry loop transmits the parameter mapping fixed
before the loop. -/
theorem runAttemptList_sent_const (env : Nat → AttemptOutcome) (maxR : Nat)
    (ats : List Nat) (sp : ParamList) (last : LastExc) :
    (runAttemptList env maxR ats sp last).sent =
      List.replicate (runAttemptList env maxR ats sp last).attempts sp := by
  induction ats generalizing last with
  | nil => simp [runAttemptList]
  | cons a rest ih =>
    simp only [runAttemptList]
    cases h : env a with
    | response status data =>
      by_cases hd : data.isErrObj <;> simp [hd, List.replicate]
    | transportError e =>
      by_cases ha : a < maxR <;> simp [ha, ih, List.replicate_succ]

/-- Every attempt of a whole `_request` call transmits the mapping fixed
before the loop. -/
theorem requestCore_sent_const (env : Nat → AttemptOutcome) (maxR : Nat) (sp : ParamList) :
    (requestCore env maxR sp).sent = List.replicate (requestCore env maxR sp).attempts sp :=
  runAttemptList_sent_const env maxR (attemptNums 1 maxR) sp .noAttempts

/-- Behaviour of the retry loop from attempt `j` on, when attempts before
`k` raise transport errors and attempt `k` receives an error payload: the
loop raises `BinanceAPIError` at attempt `k`, having slept only after the
failed attempts before `k`. -/
theorem runAttemptList_apiError (env : Nat → AttemptOutcome) (maxR k st : Nat)
    (fields : List (String × Json)) (v : Json)
    (hcode : dictLookup "code" fields = some v) (h200 : v.isNum200 = false)
    (hresp : env k = .response st (.obj fields)) (hkmax : k ≤ maxR) :
    ∀ m : Nat, ∀ (j : Nat) (sp : ParamList) (last : LastExc), j ≤ k → k < j + m →
      (∀ i, j ≤ i → i < k → ∃ e, env i = .transportError e) →
      runAttemptList env maxR (attemptNums j m) sp last =
        ⟨.apiError v ((dictLookup "msg" fields).getD (.str "Unknown error")) st,
         k + 1 - j, (attemptNums j (k - j)).map (fun a => 2 ^ (a - 1)),
         List.replicate (k + 1 - j) sp⟩ := by
  intro m
  induction m with
  | zero =>
    intro j sp last hjk hkm htr
    omega
  | succ m ih =>
    intro j sp last hjk hkm htr
    by_cases hj : j = k
    · subst hj
      simp only [attemptNums, runAttemptList, hresp]
      have herr : (Json.obj fields).isErrObj = true := by
        simp [Json.isErrObj, hcode, h200]
      rw [if_pos herr]
      have h1 : j + 1 - j = 1 := by omega
      have h2 : j - j = 0 := by omega
      simp [Json.getCode, Json.getMsg, hcode, h1, h2, attemptNums]
    · have hjk2 : j < k := by omega
      obtain ⟨e, he⟩ := htr j (le_refl j) hjk2
      simp only [attemptNums, runAttemptList, he]
      rw [if_pos (show j < maxR by omega)]
      rw [ih (j + 1) sp (.exc e) (by omega) (by omega)
        (fun i hi1 hi2 => htr i (by omega) hi2)]
      have hc : k - j = (k - (j + 1)) + 1 := by omega
      simp only [RunOutput.mk.injEq]
      refine ⟨by trivial, by omega, ?_, ?_⟩
      · rw [hc]
        simp [attemptNums]
      · rw [show k + 1 - j = (k + 1 - (j + 1)) + 1 by omega]
        simp [List.replicate_succ]

/-- Behaviour of the retry loop from attempt `j` on when every attempt up
to `max_retries` raises a transport error: all remaining attempts run, a
backoff sleep follows each except the last, and the loop ends wrapping the
final attempt's exception. -/
theorem runAttemptList_allTransport (env : Nat → AttemptOutcome) (maxR : Nat)
    (errOf : Nat → TransportExc)
    (henv : ∀ i, 1 ≤ i → i ≤ maxR → env i = .transportError (errOf i)) :
    ∀ m : Nat, ∀ (j : Nat) (sp : ParamList) (last : LastExc), 1 ≤ j → j + m = maxR + 1 →
      runAttemptList env maxR (attemptNums j m) sp last =
        ⟨.connFailure (if m = 0 then last else .exc (errOf maxR)), m,
         (attemptNums j (m - 1)).map (fun a => 2 ^ (a - 1)), List.replicate m sp⟩ := by
  intro m
  induction m with
  | zero =>
    intro j sp last hj hsum
    simp [attemptNums, runAttemptList]
  | succ m ih =>
    intro j sp last hj hsum
    have hjmax : j ≤ maxR := by omega
    simp only [attemptNums, runAttemptList, henv j hj hjmax]
    cases m with
    | zero =>
      have hjeq : j = maxR := by omega
      rw [if_neg (show ¬ j < maxR by omega)]
      rw [ih (j + 1) sp (.exc (errOf j)) (by omega) (by omega)]
      simp [hjeq, attemptNums]
    | succ m2 =>
      rw [if_pos (show j < maxR by omega)]
      rw [ih (j + 1) sp (.exc (errOf j)) (by omega) (by omega)]
      simp only [RunOutput.mk.injEq]
      refine ⟨by simp, by trivial, ?_, by simp [List.replicate_succ]⟩
      simp [attemptNums]

/-- C1: when an attempt `k` of `_request` receives a response whose parsed
JSON body is a mapping with a `code` field different from 200 (earlier
attempts having failed at the transport layer), the call raises
`BinanceAPIError` carrying that code, the message, and the HTTP status,
immediately: exactly `k` attempts are made and no sleep or retry follows
attempt `k`; in particular with `k = 1` exactly one network attempt is
made and the sleep list is empty. -/
theorem claim_C1_api_error_no_retry (env : Nat → AttemptOutcome) (maxRetries k st : Nat)
    (fields : List (String × Json)) (v : Json) (sp : ParamList)
    (hk1 : 1 ≤ k) (hk2 : k ≤ maxRetries)
    (htr : ∀ i, 1 ≤ i → i < k → ∃ e, env i = .transportError e)
    (hresp : env k = .response st (.obj fields))
    (hcode : dictLookup "code" fields = some v) (h200 : v.isNum200 = false) :
    requestCore env maxRetries sp =
      ⟨.apiError v ((dictLookup "msg" fields).getD (.str "Unknown error")) st, k,
       (attemptNums 1 (k - 1)).map (fun a => 2 ^ (a - 1)), List.replicate k sp⟩ := by
  have h := runAttemptList_apiError env maxRetries k st fields v hcode h200 hresp hk2
    maxRetries 1 sp .noAttempts hk1 (by omega) htr
  rw [show k + 1 - 1 = k from by omega] at h
  exact h

/-- A network that answers every attempt with the error payload of the
specification's non-retryable scenario. -/
def envC1 : Nat → AttemptOutcome := fun _ =>
  .response 400 (.obj [("code", .num (-1121)), ("msg", .str "Invalid symbol.")])

/-- Witness for C1: the error payload on the very first attempt gives the
API error with exactly one attempt and no sleeps. -/
theorem claim_C1_api_error_no_retry_witness :
    requestCore envC1 3 [] =
      ⟨.apiError (.num (-1121)) (.str "Invalid symbol.") 400, 1, [], [[]]⟩ := by
  have h := claim_C1_api_error_no_retry envC1 3 1 400
    [("code", .num (-1121)), ("msg", .str "Invalid symbol.")]
    (.num (-1121)) [] (le_refl 1) (by omega)
    (fun i h1 h2 => absurd (Nat.lt_of_lt_of_le h2 h1) (Nat.lt_irrefl i)) rfl rfl rfl
  simpa [dictLookup, attemptNums] using h

/-- C2: when every attempt fails with a transport-layer error, exactly
`max_retries` attempts are made, a `2^(attempt-1)` second sleep follows
each failed attempt except the last, and the call ends raising the
connection failure (the specification's `NetworkError`) wrapping the final
attempt's transport exception. -/
theorem claim_C2_retry_exhaustion (env : Nat → AttemptOutcome) (maxRetries : Nat)
    (errOf : Nat → TransportExc) (sp : ParamList) (hmax : 1 ≤ maxRetries)
    (henv : ∀ i, 1 ≤ i → i ≤ maxRetries → env i = .transportError (errOf i)) :
    requestCore env maxRetries sp =
      ⟨.connFailure (.exc (errOf maxRetries)), maxRetries,
       (attemptNums 1 (maxRetries - 1)).map (fun a => 2 ^ (a - 1)),
       List.replicate maxRetries sp⟩ := by
  have h := runAttemptList_allTransport env maxRetries errOf henv maxRetries 1 sp .noAttempts
    (le_refl 1) (by omega)
  rw [if_neg (show ¬ maxRetries = 0 by omega)] at h
  exact h

/-- A network that times out on every attempt. -/
def envC2 : Nat → AttemptOutcome := fun _ => .transportError .timeout

/-- Witness for C2: three timeouts with `max_retries = 3` give three
attempts, sleeps of 1 and 2 seconds, and the final failure wrapping the
last timeout. -/
theorem claim_C2_retry_exhaustion_witness :
    requestCore envC2 3 [] =
      ⟨.connFailure (.exc .timeout), 3, [1, 2], [[], [], []]⟩ := by
  have h := claim_C2_retry_exhaustion envC2 3 (fun _ => .timeout) [] (by omega)
    (fun i h1 h2 => rfl)
  simpa [attemptNums] using h

/-- C9 as amended: in a signed `_request` call on a non-empty
caller-supplied mapping (free of the injected keys), the `timestamp`,
`recvWindow` and `signature` fields are computed exactly once before the
first attempt, every attempt transmits that identical mapping, and the
caller's mapping is mutated in place into it. -/
theorem claim_C9_signed_once_amended (apiSecret : String) (now : Nat)
    (env : Nat → AttemptOutcome) (maxRetries : Nat) (l : ParamList) (hne : l ≠ [])
    (h1 : "timestamp" ∉ dictKeys l) (h2 : "recvWindow" ∉ dictKeys l)
    (h3 : "signature" ∉ dictKeys l) :
    (pyRequest apiSecret now env maxRetries (some l) true).1.sent =
      List.replicate (pyRequest apiSecret now env maxRetries (some l) true).1.attempts
        (BinanceClient.buildSignedParams apiSecret now l) ∧
    (pyRequest apiSecret now env maxRetries (some l) true).2 =
      some (BinanceClient.buildSignedParams apiSecret now l) ∧
    BinanceClient.buildSignedParams apiSecret now l =
      l ++ [("timestamp", .n now), ("recvWindow", .n 5000),
        ("signature", .s (BinanceClient.sign apiSecret
          (l ++ [("timestamp", .n now), ("recvWindow", .n 5000)])))] := by
  have hE : l.isEmpty = false := by
    cases l with
    | nil => exact absurd rfl hne
    | cons a r => rfl
  have heq := buildSignedParams_eq apiSecret now l h1 h2 h3
  simp only [BinanceClient.RECV_WINDOW] at heq
  refine ⟨?_, ?_, heq⟩
  · simp only [pyRequest, hE]
    exact requestCore_sent_const env maxRetries _
  · simp [pyRequest, hE]

/-- Counterexample to C9 as stated: a signed call on a caller-supplied
empty mapping leaves the caller's mapping unchanged and without a
`timestamp` field, because `params = params or \x7b\x7d` replaces a falsy
dict by a fresh one, so the in-place mutation never reaches the caller. -/
theorem claim_C9_signed_once_counterexample :
    (pyRequest "key" 0 (fun _ => .transportError .timeout) 1 (some []) true).2 = some [] ∧
    dictLookup "timestamp" ([] : ParamList) = none :=
  ⟨rfl, rfl⟩

/-- Witness for the amended C9 at a concrete non-empty mapping. -/
theorem claim_C9_signed_once_amended_witness :
    (pyRequest "key" 7 (fun _ => .transportError .timeout) 2
        (some [("symbol", .s "BTCUSDT")]) true).1.sent =
      List.replicate (pyRequest "key" 7 (fun _ => .transportError .timeout) 2
        (some [("symbol", .s "BTCUSDT")]) true).1.attempts
        (BinanceClient.buildSignedParams "key" 7 [("symbol", .s "BTCUSDT")]) ∧
    (pyRequest "key" 7 (fun _ => .transportError .timeout) 2
        (some [("symbol", .s "BTCUSDT")]) true).2 =
      some (BinanceClient.buildSignedParams "key" 7 [("symbol", .s "BTCUSDT")]) ∧
    BinanceClient.buildSignedParams "key" 7 [("symbol", .s "BTCUSDT")] =
      [("symbol", .s "BTCUSDT")] ++ [("timestamp", .n 7), ("recvWindow", .n 5000),
        ("signature", .s (BinanceClient.sign "key"
          ([("symbol", .s "BTCUSDT")] ++ [("timestamp", .n 7), ("recvWindow", .n 5000)])))] :=
  claim_C9_signed_once_amended "key" 7 (fun _ => .transportError .timeout) 2
    [("symbol", .s "BTCUSDT")] (by decide) (by decide) (by decide) (by decide)

end TradingBot
